import Mathlib

/-!
Verification of the `acp` collection codec (src/deck.rs, src/apkg.rs).

The Rust sources are shallowly embedded:
* JSON values of the `json` crate are modelled by the inductive `Json`
  (numbers as `Rat`: every numeric field the claims touch is integral,
  and floating-point values only pass through untouched);
* Rust `i64` is modelled by `Int` (no arithmetic in the embedded code can
  overflow: values are moved, compared and re-encoded, never combined);
* Rust `String` is modelled by `String`, and the byte-level join/split
  helpers used for the `notes` columns work on `List Char`;
* fallible Rust functions returning `Result`/`JsonResult` are modelled by
  `Except String`/`Except SqlError`, keeping the source's error strings;
* the SQLite statements executed through `rusqlite` act on an explicit
  database state `Db`; each `execute` is applied immediately (rusqlite's
  autocommit mode: no transaction is ever opened by the source).
-/

/-- JSON values as represented by the `json` crate (`json::JsonValue`).
Numbers are modelled as rationals; object entries keep insertion order. -/
inductive Json where
  | null : Json
  | bool (b : Bool) : Json
  | num (q : Rat) : Json
  | str (s : String) : Json
  | arr (xs : List Json) : Json
  | obj (entries : List (String × Json)) : Json

/-- Shorthand for an integral JSON number (the crate's `i64` insertions). -/
def Json.int (i : Int) : Json := Json.num (i : Rat)

/-- `JsonValue::as_i64`: succeeds only on integral numbers. -/
def Json.asI64 : Json → Option Int
  | Json.num q => if q.den = 1 then some q.num else none
  | _ => none

/-- `JsonValue::as_f64`. -/
def Json.asF64 : Json → Option Rat
  | Json.num q => some q
  | _ => none

/-- `JsonValue::as_str`. -/
def Json.asStr : Json → Option String
  | Json.str s => some s
  | _ => none

/-- `JsonValue::as_bool`. -/
def Json.asBool : Json → Option Bool
  | Json.bool b => some b
  | _ => none

/-- `JsonValue::is_object`. -/
def Json.isObject : Json → Bool
  | Json.obj _ => true
  | _ => false

/-- `JsonValue::is_array`. -/
def Json.isArray : Json → Bool
  | Json.arr _ => true
  | _ => false

/-- `JsonValue::is_number`. -/
def Json.isNumber : Json → Bool
  | Json.num _ => true
  | _ => false

/-- Lookup of a key in an object's entry list; `Json.null` when absent. -/
def getKey : List (String × Json) → String → Json
  | [], _ => Json.null
  | (k, v) :: rest, key => if k = key then v else getKey rest key

/-- `json[key]` indexing: `Json.null` for a missing key or a non-object. -/
def Json.get : Json → String → Json
  | Json.obj es, key => getKey es key
  | _, _ => Json.null

/-- `JsonValue::members()`: the elements of an array, empty otherwise. -/
def Json.members : Json → List Json
  | Json.arr xs => xs
  | _ => []

/-- `JsonValue::entries()`: the key/value pairs of an object, empty otherwise. -/
def Json.entries : Json → List (String × Json)
  | Json.obj es => es
  | _ => []

/-! ## Enum codecs (src/deck.rs) -/

/-- `CardType` (deck.rs). -/
inductive CardType where
  | New | Learning | Review | Relearning
deriving DecidableEq

/-- `impl From<i64> for CardType`. -/
def CardType.fromI64 (i : Int) : CardType :=
  if i = 1 then CardType.Learning
  else if i = 2 then CardType.Review
  else if i = 3 then CardType.Relearning
  else CardType.New

/-- `impl Into<i64> for CardType`. -/
def CardType.intoI64 : CardType → Int
  | CardType.New => 0
  | CardType.Learning => 1
  | CardType.Review => 2
  | CardType.Relearning => 3

/-- `CardQueue` (deck.rs). -/
inductive CardQueue where
  | UserBuried | Buried | Suspended | New | Learning | Review | InLearning | Preview
deriving DecidableEq

/-- `impl From<i64> for CardQueue`. -/
def CardQueue.fromI64 (i : Int) : CardQueue :=
  if i = -3 then CardQueue.UserBuried
  else if i = -2 then CardQueue.Buried
  else if i = -1 then CardQueue.Suspended
  else if i = 1 then CardQueue.Learning
  else if i = 2 then CardQueue.Review
  else if i = 3 then CardQueue.InLearning
  else if i = 4 then CardQueue.Preview
  else CardQueue.New

/-- `impl Into<i64> for CardQueue`. -/
def CardQueue.intoI64 : CardQueue → Int
  | CardQueue.UserBuried => -3
  | CardQueue.Buried => -2
  | CardQueue.Suspended => -1
  | CardQueue.New => 0
  | CardQueue.Learning => 1
  | CardQueue.Review => 2
  | CardQueue.InLearning => 3
  | CardQueue.Preview => 4

/-- `ModelType` (deck.rs). -/
inductive ModelType where
  | Standard | Cloze
deriving DecidableEq

/-- `impl From<i64> for ModelType`. -/
def ModelType.fromI64 (i : Int) : ModelType :=
  if i = 1 then ModelType.Cloze else ModelType.Standard

/-- `impl Into<i64> for ModelType`. -/
def ModelType.intoI64 : ModelType → Int
  | ModelType.Standard => 0
  | ModelType.Cloze => 1

/-- `LeechAction` (deck.rs). -/
inductive LeechAction where
  | Suspend | Mark
deriving DecidableEq

/-- `impl From<i64> for LeechAction`. -/
def LeechAction.fromI64 (i : Int) : LeechAction :=
  if i = 1 then LeechAction.Mark else LeechAction.Suspend

/-- `impl Into<i64> for LeechAction`. -/
def LeechAction.intoI64 : LeechAction → Int
  | LeechAction.Suspend => 0
  | LeechAction.Mark => 1

/-- `NewOrder` (deck.rs). -/
inductive NewOrder where
  | Random | Due
deriving DecidableEq

/-- `impl From<i64> for NewOrder`. -/
def NewOrder.fromI64 (i : Int) : NewOrder :=
  if i = 1 then NewOrder.Due else NewOrder.Random

/-- `impl Into<i64> for NewOrder`. -/
def NewOrder.intoI64 : NewOrder → Int
  | NewOrder.Random => 0
  | NewOrder.Due => 1

/-- `NewSpread` (deck.rs). -/
inductive NewSpread where
  | Distribute | Last | First
deriving DecidableEq

/-- `impl From<i64> for NewSpread`. -/
def NewSpread.fromI64 (i : Int) : NewSpread :=
  if i = 1 then NewSpread.Last
  else if i = 2 then NewSpread.First
  else NewSpread.Distribute

/-- `impl Into<i64> for NewSpread`. -/
def NewSpread.intoI64 : NewSpread → Int
  | NewSpread.Distribute => 0
  | NewSpread.Last => 1
  | NewSpread.First => 2

/-- `GraveType` (deck.rs). -/
inductive GraveType where
  | Card | Note | Deck
deriving DecidableEq

/-- `impl From<i64> for GraveType`. -/
def GraveType.fromI64 (i : Int) : GraveType :=
  if i = 1 then GraveType.Note
  else if i = 2 then GraveType.Deck
  else GraveType.Card

/-- `impl Into<i64> for GraveType`. -/
def GraveType.intoI64 : GraveType → Int
  | GraveType.Card => 0
  | GraveType.Note => 1
  | GraveType.Deck => 2

/-- `ReviewAnswer` (deck.rs). -/
inductive ReviewAnswer where
  | Wrong | Hard | OK | Easy
deriving DecidableEq

/-- `ReviewAnswer::from_i64(is_review, i)` (deck.rs lines 1817-1832). -/
def ReviewAnswer.from_i64 (is_review : Bool) (i : Int) : ReviewAnswer :=
  if is_review then
    if i = 2 then ReviewAnswer.Hard
    else if i = 3 then ReviewAnswer.OK
    else if i = 4 then ReviewAnswer.Easy
    else ReviewAnswer.Wrong
  else
    if i = 2 then ReviewAnswer.OK
    else if i = 3 then ReviewAnswer.Easy
    else ReviewAnswer.Wrong

/-- `ReviewAnswer::into_i64(self, is_review)` (deck.rs lines 1834-1851).
Total: it returns a plain `i64`, there is no error path in the source. -/
def ReviewAnswer.into_i64 (a : ReviewAnswer) (is_review : Bool) : Int :=
  if is_review then
    match a with
    | ReviewAnswer.Wrong => 1
    | ReviewAnswer.Hard => 2
    | ReviewAnswer.OK => 3
    | ReviewAnswer.Easy => 4
  else
    match a with
    | ReviewAnswer.Wrong => 1
    | ReviewAnswer.OK => 2
    | ReviewAnswer.Easy => 3
    | ReviewAnswer.Hard => 1

/-- C1. The claim says encoding `Hard` with `wasReviewCard = false` fails with
a validation error. The source's `ReviewAnswer::into_i64` is total: in the
non-review branch it maps `Hard` to `1`, the same code as `Wrong`, so the
value decodes back to `Wrong` — a silent alias, not an error. All seven
other (answer, phase) combinations do round-trip. -/
theorem c1_hard_nonreview_aliases_to_wrong :
    ReviewAnswer.into_i64 ReviewAnswer.Hard false = 1
    ∧ ReviewAnswer.into_i64 ReviewAnswer.Wrong false = 1
    ∧ ReviewAnswer.from_i64 false (ReviewAnswer.into_i64 ReviewAnswer.Hard false)
        = ReviewAnswer.Wrong
    ∧ ReviewAnswer.from_i64 true (ReviewAnswer.into_i64 ReviewAnswer.Wrong true)
        = ReviewAnswer.Wrong
    ∧ ReviewAnswer.from_i64 true (ReviewAnswer.into_i64 ReviewAnswer.Hard true)
        = ReviewAnswer.Hard
    ∧ ReviewAnswer.from_i64 true (ReviewAnswer.into_i64 ReviewAnswer.OK true)
        = ReviewAnswer.OK
    ∧ ReviewAnswer.from_i64 true (ReviewAnswer.into_i64 ReviewAnswer.Easy true)
        = ReviewAnswer.Easy
    ∧ ReviewAnswer.from_i64 false (ReviewAnswer.into_i64 ReviewAnswer.Wrong false)
        = ReviewAnswer.Wrong
    ∧ ReviewAnswer.from_i64 false (ReviewAnswer.into_i64 ReviewAnswer.OK false)
        = ReviewAnswer.OK
    ∧ ReviewAnswer.from_i64 false (ReviewAnswer.into_i64 ReviewAnswer.Easy false)
        = ReviewAnswer.Easy := by
  decide

/-- C5. For every enum type other than `ReviewAnswer` — `CardType`,
`CardQueue`, `ModelType`, `LeechAction`, `NewOrder`, `NewSpread`,
`GraveType` — decoding the encoding of any defined variant returns the same
variant. -/
theorem c5_enum_roundtrip :
    (∀ v : CardType, CardType.fromI64 (CardType.intoI64 v) = v)
    ∧ (∀ v : CardQueue, CardQueue.fromI64 (CardQueue.intoI64 v) = v)
    ∧ (∀ v : ModelType, ModelType.fromI64 (ModelType.intoI64 v) = v)
    ∧ (∀ v : LeechAction, LeechAction.fromI64 (LeechAction.intoI64 v) = v)
    ∧ (∀ v : NewOrder, NewOrder.fromI64 (NewOrder.intoI64 v) = v)
    ∧ (∀ v : NewSpread, NewSpread.fromI64 (NewSpread.intoI64 v) = v)
    ∧ (∀ v : GraveType, GraveType.fromI64 (GraveType.intoI64 v) = v) := by
  refine ⟨?_, ?_, ?_, ?_, ?_, ?_, ?_⟩ <;> intro v <;> cases v <;> decide

/-! ## The two legacy text-join encodings (Note::save / Collection::new)

`Note::save` stores `self.tags.join(" ")` and `self.fields.join("\0x1f")`;
`Collection::new` loads them back with `tags.split(" ")` and
`fields.split("\0x1f")`. Strings are modelled as `List Char`. Note that the
Rust literal `"\0x1f"` denotes the FOUR characters NUL, 'x', '1', 'f' (the
escape `\0` followed by the text `x1f`), not the single byte 0x1F. -/

/-- Prepend a character to the first piece of a split result. -/
def prependHead1 (a : Char) : List (List Char) → List (List Char)
  | [] => [[a]]
  | x :: xs => (a :: x) :: xs

/-- Prepend a string to the first piece of a split result. -/
def prependHead (x : List Char) : List (List Char) → List (List Char)
  | [] => [x]
  | y :: ys => (x ++ y) :: ys

/-- Rust `str::split` with a one-character pattern (used as `split(" ")`):
every occurrence separates, so consecutive separators yield empty pieces,
and the empty string splits to one empty piece. -/
def splitChar (c : Char) : List Char → List (List Char)
  | [] => [[]]
  | a :: rest =>
    if a = c then [] :: splitChar c rest
    else prependHead1 a (splitChar c rest)

/-- Does `s` begin with `sep`? (`str::starts_with` on char lists.) -/
def leadsWith : List Char → List Char → Bool
  | [], _ => true
  | _ :: _, [] => false
  | a :: as, b :: bs => a == b && leadsWith as bs

/-- Fuel-indexed worker for `splitSeq`; the fuel is an upper bound on the
input length, so the `0, s` fallback arm is never reached from `splitSeq`. -/
def splitSeqFuel (sep : List Char) : Nat → List Char → List (List Char)
  | _, [] => [[]]
  | 0, s => [s]
  | Nat.succ n, a :: rest =>
    if leadsWith sep (a :: rest) then
      [] :: splitSeqFuel sep n (List.drop sep.length (a :: rest))
    else
      prependHead1 a (splitSeqFuel sep n rest)

/-- Rust `str::split` with a multi-character pattern: non-overlapping
occurrences, scanned left to right. -/
def splitSeq (sep s : List Char) : List (List Char) :=
  splitSeqFuel sep s.length s

/-- Rust `Vec<String>::join(sep)`. -/
def joinList (sep : List Char) : List (List Char) → List Char
  | [] => []
  | [x] => x
  | x :: y :: rest => x ++ sep ++ joinList sep (y :: rest)

/-- The Rust string literal `"\0x1f"` used by `Note::save` and
`Collection::new`: NUL followed by the text `x1f` — four characters. -/
def sep1f : List Char := [Char.ofNat 0, 'x', '1', 'f']

/-- The note `tags` column as written by `Note::save`: `tags.join(" ")`. -/
def tagsStore (tags : List (List Char)) : List Char :=
  joinList [' '] tags

/-- The note tag list as read by `Collection::new`: `tags.split(" ")`. -/
def tagsLoad (s : List Char) : List (List Char) :=
  splitChar ' ' s

/-- The note `flds` column as written by `Note::save`:
`fields.join("\0x1f")`. -/
def fieldsStore (fields : List (List Char)) : List Char :=
  joinList sep1f fields

/-- The note field list as read by `Collection::new`:
`fields.split("\0x1f")`. -/
def fieldsLoad (s : List Char) : List (List Char) :=
  splitSeq sep1f s

theorem splitChar_ne_nil (c : Char) (s : List Char) : splitChar c s ≠ [] := by
  induction s with
  | nil => simp [splitChar]
  | cons a rest ih =>
    by_cases hac : a = c
    · simp [splitChar, hac]
    · simp only [splitChar, if_neg hac]
      cases splitChar c rest <;> simp [prependHead1]

theorem splitChar_append (c : Char) (x s : List Char) :
    c ∉ x → splitChar c (x ++ s) = prependHead x (splitChar c s) := by
  induction x with
  | nil =>
    intro _
    cases hsc : splitChar c s with
    | nil => exact absurd hsc (splitChar_ne_nil c s)
    | cons y ys => simp [prependHead, hsc]
  | cons a x' ih =>
    intro h
    have ha : ¬ a = c := fun hac => h (by simp [hac])
    have hx' : c ∉ x' := fun hc => h (by simp [hc])
    rw [show (a :: x') ++ s = a :: (x' ++ s) from rfl]
    rw [show splitChar c (a :: (x' ++ s))
          = prependHead1 a (splitChar c (x' ++ s)) from by simp [splitChar, ha]]
    rw [ih hx']
    cases splitChar c s <;> simp [prependHead, prependHead1]

theorem tags_roundtrip_aux (l : List (List Char)) :
    l ≠ [] → (∀ t ∈ l, ' ' ∉ t) → tagsLoad (tagsStore l) = l := by
  induction l with
  | nil => intro hne _; exact absurd rfl hne
  | cons x xs ih =>
    intro _ hfree
    cases xs with
    | nil =>
      show splitChar ' ' (joinList [' '] [x]) = [x]
      rw [show joinList [' '] [x] = x ++ [] from by simp [joinList]]
      rw [splitChar_append ' ' x [] (hfree x (by simp))]
      simp [splitChar, prependHead]
    | cons y ys =>
      show splitChar ' ' (joinList [' '] (x :: y :: ys)) = x :: y :: ys
      rw [show joinList [' '] (x :: y :: ys)
            = x ++ (' ' :: joinList [' '] (y :: ys)) from by
          simp [joinList, List.append_assoc]]
      rw [splitChar_append ' ' x _ (hfree x (by simp))]
      rw [show splitChar ' ' (' ' :: joinList [' '] (y :: ys))
            = [] :: splitChar ' ' (joinList [' '] (y :: ys)) from by
          simp [splitChar]]
      have hys := ih (by simp) (fun t ht => hfree t (by simp [ht]))
      rw [show splitChar ' ' (joinList [' '] (y :: ys)) = y :: ys from hys]
      simp [prependHead]

/-- C4. The claim says note fields are joined and split on the single ASCII
unit-separator byte 0x1F. The source joins and splits on the Rust literal
`"\0x1f"`, which is the four characters NUL, 'x', '1', 'f': joining
`["a", "b"]` yields a six-character column, not `"a\x1Fb"`; a stored column
containing the 0x1F byte is NOT split at it; and a field value containing
0x1F survives a store/load round trip unchanged, which the claimed encoding
would forbid. -/
theorem c4_field_separator_is_not_unit_byte :
    fieldsStore [['a'], ['b']] = ['a', Char.ofNat 0, 'x', '1', 'f', 'b']
    ∧ fieldsStore [['a'], ['b']] ≠ ['a', Char.ofNat 31, 'b']
    ∧ fieldsLoad ['a', Char.ofNat 31, 'b'] = [['a', Char.ofNat 31, 'b']]
    ∧ fieldsLoad (fieldsStore [['a', Char.ofNat 31, 'b']])
        = [['a', Char.ofNat 31, 'b']]
    ∧ fieldsLoad (fieldsStore [['a'], ['b']]) = [['a'], ['b']] := by
  decide

/-- C6 counterexample. The claim asserts that every tag list whose entries
contain no spaces round-trips exactly; the empty tag list is such a list,
yet it is stored as the empty string, which loads back as a single empty
tag, not as the empty list. -/
theorem c6_empty_taglist_not_preserved :
    tagsLoad (tagsStore []) = [[]] ∧ ([[]] : List (List Char)) ≠ [] := by
  decide

/-- C6 (amended). The tag list is stored space-joined and loaded by
splitting on each single space, so consecutive spaces in the stored string
produce empty tag entries that are preserved; every NON-EMPTY tag list
whose entries contain no spaces round-trips exactly (the empty tag list
loads back as one empty tag, see the counterexample). -/
theorem c6_tags_roundtrip :
    (∀ l : List (List Char), l ≠ [] → (∀ t ∈ l, ' ' ∉ t) →
      tagsLoad (tagsStore l) = l)
    ∧ tagsLoad ['a', ' ', ' ', 'b'] = [['a'], [], ['b']] :=
  ⟨tags_roundtrip_aux, by decide⟩

/-- C6 witness: the round-trip theorem applied at a concrete two-tag list. -/
theorem c6_tags_roundtrip_witness :
    tagsLoad (tagsStore [['a'], ['b', 'c']]) = [['a'], ['b', 'c']] :=
  c6_tags_roundtrip.1 [['a'], ['b', 'c']] (by decide) (by decide)

/-! ## Media index (src/apkg.rs, `load_media`)

`load_media` reads the `media` file, parses it with the `json` crate and
walks the entries of the resulting object. The embedding works on the
parsed `Json` value. A `Media` record keeps the condensed on-disk name (the
object key; the source stores `path = dir.join(condensed_name)`) and the
display name (the string value). -/

/-- `apkg::Media`: `condensed` is the on-disk (archive) file name,
`name` the original display file name. -/
structure Media where
  condensed : String
  name : String
deriving DecidableEq

/-- The entry loop of `load_media`: keys whose value is a string become
`Media` records, in order; entries with a non-string value are skipped. -/
def loadMediaEntries : List (String × Json) → List Media
  | [] => []
  | (k, v) :: rest =>
    match v.asStr with
    | some s => { condensed := k, name := s } :: loadMediaEntries rest
    | none => loadMediaEntries rest

/-- `apkg::load_media` on the parsed media-index JSON: a non-object value
yields zero entries and is returned as `Ok` (not an error); an object is
walked entry by entry. -/
def load_media : Json → List Media
  | Json.obj es => loadMediaEntries es
  | _ => []

/-- C8. Loading the media index `("sound1.mp3": "bonjour.mp3")` yields
exactly one Media entry with display name `bonjour.mp3` and on-disk name
`sound1.mp3`; loading any valid JSON value that is not an object yields
zero Media entries (and is not an error: `load_media` returns `Ok` with an
empty list in the source). -/
theorem c8_media_index_parse :
    load_media (Json.obj [("sound1.mp3", Json.str "bonjour.mp3")])
      = [{ condensed := "sound1.mp3", name := "bonjour.mp3" }]
    ∧ (∀ j : Json, j.isObject = false → load_media j = []) := by
  refine ⟨by decide, ?_⟩
  intro j hj
  cases j <;> simp_all [Json.isObject, load_media]

/-- C8 witness: the non-object clause applied to a concrete JSON array. -/
theorem c8_media_index_parse_witness :
    load_media (Json.arr [Json.str "bonjour.mp3"]) = [] :=
  c8_media_index_parse.2 (Json.arr [Json.str "bonjour.mp3"]) rfl

/-- C10. Entries of the media-index object whose value is not a string are
silently skipped: the result contains exactly one `Media` per entry whose
value is a string (key as on-disk name, value as display name), in order,
and no error is reported — `load_media` stays `Ok` on such input. -/
theorem c10_media_nonstring_entries_skipped :
    (∀ es : List (String × Json),
      load_media (Json.obj es)
        = es.filterMap (fun e =>
            (Json.asStr e.2).map (fun s => { condensed := e.1, name := s })))
    ∧ load_media (Json.obj
        [("a.mp3", Json.str "x.mp3"), ("b.mp3", Json.num 3),
         ("c.mp3", Json.null), ("d.mp3", Json.str "y.mp3")])
      = [{ condensed := "a.mp3", name := "x.mp3" },
         { condensed := "d.mp3", name := "y.mp3" }] := by
  constructor
  · intro es
    show loadMediaEntries es = _
    induction es with
    | nil => rfl
    | cons e rest ih =>
      obtain ⟨k, v⟩ := e
      cases v <;> simp [loadMediaEntries, Json.asStr, ih]
  · decide

/-! ## SyncConfig codec (src/deck.rs, `SyncConfig::new` / `SyncConfig::to_json`)

`SyncConfig::new` takes the raw column text and first runs `json::parse`;
the embedding works on the parsed `Json` value (the text layer belongs to
the external `json` crate, and serialized values re-parse to themselves at
the value level). -/

/-- `SyncConfig` (deck.rs). -/
structure SyncConfig where
  current_deck : Int
  active_decks : List Int
  new_spread : NewSpread
  collapse_time : Int
  time_limit : Int
  estimated_times : Bool
  due_counts : Bool
  current_model : Int
  next_pos : Int
  sort_type : Option String
  sort_backwards : Bool
  add_to_current : Bool
  day_learn_first : Bool
  new_bury : Option Bool
  last_unburied : Option Int
  active_cols : List String
deriving DecidableEq

/-- An element loop over a JSON array collecting `i64`s; a non-integer
member aborts with the caller's error message. -/
def readIntList (msg : String) : List Json → Except String (List Int)
  | [] => Except.ok []
  | j :: rest =>
    match j.asI64 with
    | none => Except.error msg
    | some i =>
    match readIntList msg rest with
    | Except.error e => Except.error e
    | Except.ok l => Except.ok (i :: l)

/-- An element loop over a JSON array collecting strings; a non-string
member aborts with the caller's error message. -/
def readStrList (msg : String) : List Json → Except String (List String)
  | [] => Except.ok []
  | j :: rest =>
    match j.asStr with
    | none => Except.error msg
    | some s =>
    match readStrList msg rest with
    | Except.error e => Except.error e
    | Except.ok l => Except.ok (s :: l)

/-- The `activeCols` clause of `SyncConfig::new`: an array of strings, or
the default four-column set when the value is `Null` (also when the key is
absent, since indexing a missing key yields `Null`); anything else errors. -/
def activeColsField : Json → Except String (List String)
  | Json.arr xs => readStrList ("SyncConfig activeCols contains non string") xs
  | Json.null => Except.ok ["noteFld", "template", "cardDue", "deck"]
  | _ => Except.error ("SyncConfig activeCols is incorrect")

/-- `SyncConfig::new` (deck.rs lines 1590-1765), on the parsed value. -/
def SyncConfig.new (json : Json) : Except String SyncConfig :=
  if json.isObject = false then Except.error ("SyncConfig is not an object") else
  match (json.get "curDeck").asI64 with
  | none => Except.error ("SyncConfig curDeck field is missing or incorrect")
  | some cur =>
  match (json.get "newSpread").asI64 with
  | none => Except.error ("SyncConfig newSpread field is missing or incorrect")
  | some spread =>
  match (json.get "collapseTime").asI64 with
  | none => Except.error ("SyncConfig collapseTime field is missing or incorrect")
  | some collapse =>
  match (json.get "timeLim").asI64 with
  | none => Except.error ("SyncConfig timeLim field is missing or incorrect")
  | some time =>
  match (json.get "estTimes").asBool with
  | none => Except.error ("SyncConfig estTimes field is missing or incorrect")
  | some est =>
  match (json.get "dueCounts").asBool with
  | none => Except.error ("SyncConfig dueCounts field is missing or incorrect")
  | some due =>
  match (json.get "curModel").asI64 with
  | none => Except.error ("SyncConfig curModel field is missing or incorrect")
  | some curm =>
  match (json.get "nextPos").asI64 with
  | none => Except.error ("SyncConfig nextPos field is missing or incorrect")
  | some pos =>
  match (json.get "sortBackwards").asBool with
  | none => Except.error ("SyncConfig sortBackwards field is missing or incorrect")
  | some sortb =>
  match (json.get "addToCur").asBool with
  | none => Except.error ("SyncConfig addToCur field is missing or incorrect")
  | some add =>
  match (json.get "dayLearnFirst").asBool with
  | none => Except.error ("SyncConfig dayLearnFirst field is missing or incorrect")
  | some day =>
  if (json.get "activeDecks").isArray = false then
    Except.error ("SyncConfig activeDecks field is missing or incorrect") else
  match readIntList ("SyncConfig activeDecks contains non number")
      (json.get "activeDecks").members with
  | Except.error e => Except.error e
  | Except.ok decks =>
  match activeColsField (json.get "activeCols") with
  | Except.error e => Except.error e
  | Except.ok cols =>
  Except.ok
    { current_deck := cur
      active_decks := decks
      new_spread := NewSpread.fromI64 spread
      collapse_time := collapse
      time_limit := time
      estimated_times := est
      due_counts := due
      current_model := curm
      next_pos := pos
      sort_type := (json.get "sortType").asStr
      sort_backwards := sortb
      add_to_current := add
      day_learn_first := day
      new_bury := (json.get "newBury").asBool
      last_unburied := (json.get "lastUnburied").asI64
      active_cols := cols }

/-- `Vec<String>::join(sep)` on Lean strings. -/
def joinStrings (sep : String) : List String → String
  | [] => ""
  | [x] => x
  | x :: y :: rest => x ++ sep ++ joinStrings sep (y :: rest)

/-- `SyncConfig::to_json` (deck.rs lines 1767-1804), reproducing the
source's insertion order. Note: the source never writes a `newSpread` key,
and it writes `activeCols` as one space-joined STRING
(`self.active_cols.join(" ")`), although its own parser demands an array
or null there. -/
def SyncConfig.to_json (c : SyncConfig) : Json :=
  Json.obj
    ([("curDeck", Json.int c.current_deck),
      ("collapseTime", Json.int c.collapse_time),
      ("timeLim", Json.int c.time_limit),
      ("estTimes", Json.bool c.estimated_times),
      ("dueCounts", Json.bool c.due_counts),
      ("curModel", Json.int c.current_model),
      ("nextPos", Json.int c.next_pos),
      ("sortBackwards", Json.bool c.sort_backwards),
      ("addToCur", Json.bool c.add_to_current),
      ("dayLearnFirst", Json.bool c.day_learn_first),
      ("activeDecks", Json.arr (c.active_decks.map Json.int))]
    ++ (match c.sort_type with
        | some s => [("sortType", Json.str s)]
        | none => [])
    ++ (match c.new_bury with
        | some b => [("newBury", Json.bool b)]
        | none => [])
    ++ (match c.last_unburied with
        | some i => [("lastUnburied", Json.int i)]
        | none => [])
    ++ [("activeCols", Json.str (joinStrings " " c.active_cols))])

/-! ## Deck codec (src/deck.rs, `Deck::new` / `Deck::parse` / `Deck::to_json`) -/

/-- `Deck` (deck.rs). -/
structure Deck where
  epoch : Int
  name : String
  extended_review_limit : Int
  usn : Int
  collapsed : Bool
  browser_collapsed : Bool
  dynamic : Int
  extended_new_limit : Int
  config_id : Int
  id : Int
  modification_time : Int
  description : String
  new_today : Int × Int
  learned_today : Int × Int
  reviewed_today : Int × Int
deriving DecidableEq

/-- The (today, total) pair parsing block of `Deck::new`, shared by the
`newToday`, `lrnToday` and `revToday` blocks (`tag` selects the error
messages; the source repeats the block inline with these messages). -/
def deckPair (tag : String) (j : Json) : Except String (Int × Int) :=
  if j.isArray = false then
    Except.error ("Deck " ++ tag ++ " field missing or incorect") else
  match j.members with
  | [a, b] =>
    (match a.asI64, b.asI64 with
     | some x, some y => Except.ok (x, y)
     | none, _ => Except.error ("Deck " ++ tag ++ " array element 0 not integer")
     | some _, none => Except.error ("Deck " ++ tag ++ " array element 1 not integer"))
  | _ => Except.error ("Deck " ++ tag ++ " array wrong length")

/-- `Deck::new` (deck.rs lines 746-939). `extended_rev` and `extendNew`
default to 10 when absent. The `revToday` block of the source reads
`json["lrnToday"]` (line 911) and takes its element 1 from the `lrnToday`
vector (line 930), so `reviewed_today` is populated from `lrnToday`. -/
def Deck.new (epoch : Int) (json : Json) : Except String Deck :=
  if json.isObject = false then Except.error ("Deck is not an object") else
  match (json.get "name").asStr with
  | none => Except.error ("Deck name field missing or incorect")
  | some name =>
  match (json.get "usn").asI64 with
  | none => Except.error ("Deck usn field missing or incorect")
  | some usn =>
  match (json.get "collapsed").asBool with
  | none => Except.error ("Deck collapsed field missing or incorect")
  | some collapsed =>
  match (json.get "browserCollapsed").asBool with
  | none => Except.error ("Deck browserCollapsed field missing or incorect")
  | some browser =>
  match (json.get "dyn").asI64 with
  | none => Except.error ("Deck dyn field missing or incorect")
  | some dynamic =>
  match (json.get "conf").asI64 with
  | none => Except.error ("Deck conf field missing or incorect")
  | some conf =>
  match (json.get "id").asI64 with
  | none => Except.error ("Deck id field missing or incorect")
  | some id =>
  match (json.get "mod").asI64 with
  | none => Except.error ("Deck mod field missing or incorect")
  | some modt =>
  match (json.get "desc").asStr with
  | none => Except.error ("Deck desc field missing or incorect")
  | some desc =>
  match deckPair "newToday" (json.get "newToday") with
  | Except.error e => Except.error e
  | Except.ok new_today =>
  match deckPair "lrnToday" (json.get "lrnToday") with
  | Except.error e => Except.error e
  | Except.ok learned_today =>
  match deckPair "revToday" (json.get "lrnToday") with
  | Except.error e => Except.error e
  | Except.ok reviewed_today =>
  Except.ok
    { epoch := epoch
      name := name
      extended_review_limit := ((json.get "extended_rev").asI64).getD 10
      usn := usn
      collapsed := collapsed
      browser_collapsed := browser
      dynamic := dynamic
      extended_new_limit := ((json.get "extendNew").asI64).getD 10
      config_id := conf
      id := id
      modification_time := modt
      description := desc
      new_today := new_today
      learned_today := learned_today
      reviewed_today := reviewed_today }

/-- The value of a decimal digit character. -/
def digitVal (c : Char) : Option Nat :=
  if '0' ≤ c ∧ c ≤ '9' then some (c.toNat - '0'.toNat) else none

/-- Accumulate decimal digits; any non-digit fails. -/
def parseNatAux (acc : Nat) : List Char → Option Nat
  | [] => some acc
  | c :: rest =>
    match digitVal c with
    | some d => parseNatAux (acc * 10 + d) rest
    | none => none

/-- Rust `str::parse::<i64>`: an optional sign followed by at least one
decimal digit (the 64-bit range check is not modelled; no value in this
development approaches it). -/
def parseI64Str (s : String) : Option Int :=
  match s.data with
  | [] => none
  | '-' :: rest =>
    (match rest with
     | [] => none
     | _ => (parseNatAux 0 rest).map (fun n => -(n : Int)))
  | '+' :: rest =>
    (match rest with
     | [] => none
     | _ => (parseNatAux 0 rest).map (fun n => (n : Int)))
  | l => (parseNatAux 0 l).map (fun n => (n : Int))

/-- The entry loop of `Deck::parse`: each key is a decimal epoch id. -/
def deckEntriesParse : List (String × Json) → Except String (List Deck)
  | [] => Except.ok []
  | (k, v) :: rest =>
    match parseI64Str k with
    | none => Except.error ("Deck does not have proper id")
    | some epoch =>
    match Deck.new epoch v with
    | Except.error e => Except.error e
    | Except.ok d =>
    match deckEntriesParse rest with
    | Except.error e => Except.error e
    | Except.ok ds => Except.ok (d :: ds)

/-- `Deck::parse` (deck.rs lines 942-967), on the parsed value. -/
def Deck.parse (j : Json) : Except String (List Deck) :=
  if j.isObject = false then
    Except.error ("Decks are not an object at top level")
  else deckEntriesParse j.entries

/-- `Deck::to_json` (deck.rs lines 969-988), in the source's key order.
Note two serializer defects reproduced faithfully: the review limit is
written under `extendRev` while the parser reads `extended_rev`, and the
`extendNew` key is written from `self.extended_review_limit` (line 980),
not from the new-card limit. -/
def Deck.to_json (d : Deck) : Int × Json :=
  (d.epoch, Json.obj
    [("name", Json.str d.name),
     ("extendRev", Json.int d.extended_review_limit),
     ("usn", Json.int d.usn),
     ("collapsed", Json.bool d.collapsed),
     ("browserCollapsed", Json.bool d.browser_collapsed),
     ("newToday", Json.arr [Json.int d.new_today.1, Json.int d.new_today.2]),
     ("revToday", Json.arr [Json.int d.reviewed_today.1, Json.int d.reviewed_today.2]),
     ("lrnToday", Json.arr [Json.int d.learned_today.1, Json.int d.learned_today.2]),
     ("dyn", Json.int d.dynamic),
     ("extendNew", Json.int d.extended_review_limit),
     ("conf", Json.int d.config_id),
     ("id", Json.int d.id),
     ("mod", Json.int d.modification_time),
     ("desc", Json.str d.description)])

/-- `Deck::to_json_all` (deck.rs lines 990-999): one object keyed by the
decimal epoch string of each deck, in list order. -/
def Deck.to_json_all (v : List Deck) : Json :=
  Json.obj (v.map (fun d => (toString (Deck.to_json d).1, (Deck.to_json d).2)))

/-- A valid sync-config document with exactly the required keys. -/
def syncDoc : Json :=
  Json.obj
    [("curDeck", Json.int 1),
     ("newSpread", Json.int 0),
     ("collapseTime", Json.int 1200),
     ("timeLim", Json.int 0),
     ("estTimes", Json.bool true),
     ("dueCounts", Json.bool true),
     ("curModel", Json.int 1425279151691),
     ("nextPos", Json.int 1),
     ("sortBackwards", Json.bool false),
     ("addToCur", Json.bool true),
     ("dayLearnFirst", Json.bool false),
     ("activeDecks", Json.arr [Json.int 1])]

/-- The in-memory value `SyncConfig::new` produces for `syncDoc`. -/
def syncVal : SyncConfig :=
  { current_deck := 1
    active_decks := [1]
    new_spread := NewSpread.Distribute
    collapse_time := 1200
    time_limit := 0
    estimated_times := true
    due_counts := true
    current_model := 1425279151691
    next_pos := 1
    sort_type := none
    sort_backwards := false
    add_to_current := true
    day_learn_first := false
    new_bury := none
    last_unburied := none
    active_cols := ["noteFld", "template", "cardDue", "deck"] }

/-- A valid deck document whose `extendNew` is 7 and whose `extended_rev`
key is absent (so the review limit defaults to 10). -/
def deckDoc : Json :=
  Json.obj
    [("name", Json.str "Default"),
     ("extendNew", Json.int 7),
     ("usn", Json.int 0),
     ("collapsed", Json.bool false),
     ("browserCollapsed", Json.bool false),
     ("dyn", Json.int 0),
     ("conf", Json.int 1),
     ("id", Json.int 1),
     ("mod", Json.int 1425279151),
     ("desc", Json.str ""),
     ("newToday", Json.arr [Json.int 0, Json.int 0]),
     ("lrnToday", Json.arr [Json.int 2, Json.int 3]),
     ("revToday", Json.arr [Json.int 4, Json.int 5])]

/-- The in-memory value `Deck::new` produces for `deckDoc` under epoch 1. -/
def deckVal : Deck :=
  { epoch := 1
    name := "Default"
    extended_review_limit := 10
    usn := 0
    collapsed := false
    browser_collapsed := false
    dynamic := 0
    extended_new_limit := 7
    config_id := 1
    id := 1
    modification_time := 1425279151
    description := ""
    new_today := (0, 0)
    learned_today := (2, 3)
    reviewed_today := (2, 3) }

/-- C3 counterexample-evaluation. The serialize-then-reparse round trip
fails on the code: (a) a valid SyncConfig document parses, but its
serialization re-parses to an ERROR, because `SyncConfig::to_json` never
writes the required `newSpread` key (it also writes `activeCols` as a
string where the parser demands an array or null); (b) a valid Deck
document with `extendNew = 7` parses to `extended_new_limit = 7`, but
serializing and re-parsing yields `extended_new_limit = 10`, because the
serializer writes the review limit under both `extendRev` (a key the
parser does not read — it reads `extended_rev`) and `extendNew`. -/
theorem c3_serialize_reparse_fails :
    SyncConfig.new syncDoc = Except.ok syncVal
    ∧ SyncConfig.new (SyncConfig.to_json syncVal)
        = Except.error ("SyncConfig newSpread field is missing or incorrect")
    ∧ Deck.parse (Json.obj [("1", deckDoc)]) = Except.ok [deckVal]
    ∧ deckVal.extended_new_limit = 7
    ∧ Except.map (fun l => l.map Deck.extended_new_limit)
        (Deck.parse (Deck.to_json_all [deckVal]))
      = Except.ok [10] := by
  refine ⟨?_, ?_, ?_, ?_, ?_⟩ <;> rfl

/-! ## Model codec (src/deck.rs, `Model::new` and serialization) -/

/-- `Field` (deck.rs; named `ModelField` here because Lean's library already
uses the name `Field`). The parser of `Model::new` never reads `flds`, so
models always carry an empty field list after parsing; the serializer
still writes the list. -/
structure ModelField where
  font : String
  name : String
  ordinal : Int
  right_to_left : Bool
  font_size : Int
  sticky : Bool
deriving DecidableEq

/-- `Template` (deck.rs). -/
structure Template where
  answer_format : String
  back_format : String
  browser_format : String
  deck_override : Option Int
  name : String
  ordinal : Int
  question_format : String
deriving DecidableEq

/-- `Request` (deck.rs). -/
structure Request where
  ordinal : Int
  string : String
  list : List Int
deriving DecidableEq

/-- `Request::new` (deck.rs lines 210-276): a positional 3-element array
(ordinal, mode string, field-index list); the source's error strings are
kept verbatim, including the `improrper` typo. `members` of a non-array is
the empty iterator, giving the too-small error as in the source. -/
def Request.new (json : Json) : Except String Request :=
  match json.members with
  | [] => Except.error ("Request array too small")
  | j0 :: rest0 =>
  match j0.asI64 with
  | none => Except.error ("Request array has improrper ordinal")
  | some ord =>
  match rest0 with
  | [] => Except.error ("Request array too small")
  | j1 :: rest1 =>
  match j1.asStr with
  | none => Except.error ("Request array has improper string")
  | some s =>
  match rest1 with
  | [] => Except.error ("Request array too small")
  | j2 :: _ =>
  if j2.isArray = false then Except.error ("Request array list not an array") else
  match readIntList ("Request array list has non-integer") j2.members with
  | Except.error e => Except.error e
  | Except.ok l => Except.ok { ordinal := ord, string := s, list := l }

/-- `Request::to_json` (deck.rs lines 278-287). -/
def Request.to_json (r : Request) : Json :=
  Json.arr [Json.int r.ordinal, Json.str r.string, Json.arr (r.list.map Json.int)]

/-- `Template::new` (deck.rs lines 334-405). The source's error message
for a bad `name` repeats the `qfmt` message (lines 387-389). -/
def Template.new (json : Json) : Except String Template :=
  if json.isObject = false then Except.error ("Template is not object") else
  match (json.get "afmt").asStr with
  | none => Except.error ("Template afmt is missing or incorrect")
  | some afmt =>
  match (json.get "bafmt").asStr with
  | none => Except.error ("Template bafmt is missing or incorrect")
  | some bafmt =>
  match (json.get "bqfmt").asStr with
  | none => Except.error ("Template bqfmt is missing or incorrect")
  | some bqfmt =>
  match (json.get "qfmt").asStr with
  | none => Except.error ("Template qfmt is missing or incorrect")
  | some qfmt =>
  match (json.get "name").asStr with
  | none => Except.error ("Template qfmt is missing or incorrect")
  | some name =>
  match (json.get "ord").asI64 with
  | none => Except.error ("Template ord is missing or incorrect")
  | some ord =>
  Except.ok
    { answer_format := afmt
      back_format := bafmt
      browser_format := bqfmt
      deck_override := (json.get "did").asI64
      name := name
      ordinal := ord
      question_format := qfmt }

/-- `Template::into_json` (deck.rs lines 407-422), in insertion order. -/
def Template.into_json (t : Template) : Json :=
  Json.obj
    ([("afmt", Json.str t.answer_format),
      ("bafmt", Json.str t.back_format),
      ("bqfmt", Json.str t.browser_format),
      ("name", Json.str t.name),
      ("ord", Json.int t.ordinal),
      ("qfmt", Json.str t.question_format)]
    ++ (match t.deck_override with
        | some d => [("did", Json.int d)]
        | none => []))

/-- `Template::into_json_all` (deck.rs lines 424-433). -/
def Template.into_json_all (v : List Template) : Json :=
  Json.arr (v.map Template.into_json)

/-- `Model` (deck.rs). -/
structure Model where
  epoch : Int
  id : Int
  css : String
  deck_id : Option Int
  fields : List ModelField
  latex_post : String
  latex_pre : String
  modification_time : Int
  name : String
  sort_field : Int
  templates : List Template
  model_type : ModelType
  usn : Int
  req : Option (List Request)
deriving DecidableEq

/-- The optional `did` clause of `Model::new` (deck.rs lines 473-484): an
integer, or a string parsed as an integer (a non-numeric string errors),
or absent. -/
def modelDeckId (json : Json) : Except String (Option Int) :=
  match (json.get "did").asI64 with
  | some i => Except.ok (some i)
  | none =>
  match (json.get "did").asStr with
  | none => Except.ok none
  | some s =>
  match parseI64Str s with
  | none => Except.error ("Deck ID field missing or incorrect")
  | some i => Except.ok (some i)

/-- The `req`-member loop of `Model::new`. -/
def parseRequests : List Json → Except String (List Request)
  | [] => Except.ok []
  | j :: rest =>
    match Request.new j with
    | Except.error e => Except.error e
    | Except.ok r =>
    match parseRequests rest with
    | Except.error e => Except.error e
    | Except.ok l => Except.ok (r :: l)

/-- The optional `req` clause of `Model::new` (deck.rs lines 550-559):
when the value is an array its members are parsed, otherwise — including
when the key is absent — `req` stays `None`. -/
def Model.reqField (reqJ : Json) : Except String (Option (List Request)) :=
  if reqJ.isArray then
    match parseRequests reqJ.members with
    | Except.error e => Except.error e
    | Except.ok l => Except.ok (some l)
  else Except.ok none

/-- The `tmpls`-member loop of `Model::new`. -/
def parseTemplates : List Json → Except String (List Template)
  | [] => Except.ok []
  | j :: rest =>
    match Template.new j with
    | Except.error e => Except.error e
    | Except.ok t =>
    match parseTemplates rest with
    | Except.error e => Except.error e
    | Except.ok l => Except.ok (t :: l)

/-- `Model::new` (deck.rs lines 437-574), field checks in source order;
`fields` is initialized empty and never populated by the parser. -/
def Model.new (epoch : Int) (json : Json) : Except String Model :=
  if json.isObject = false then Except.error ("Model is not an object") else
  match (json.get "css").asStr with
  | none => Except.error ("CSS field missing or incorrect")
  | some css =>
  match modelDeckId json with
  | Except.error e => Except.error e
  | Except.ok did =>
  match (json.get "id").asI64 with
  | none => Except.error ("ID field missing or incorrect")
  | some id =>
  match (json.get "latexPre").asStr with
  | none => Except.error ("latexPre field missing or incorrect")
  | some pre =>
  match (json.get "latexPost").asStr with
  | none => Except.error ("latexPost field missing or incorrect")
  | some post =>
  match (json.get "mod").asI64 with
  | none => Except.error ("mod field missing or incorrect")
  | some modt =>
  match (json.get "name").asStr with
  | none => Except.error ("name field missing or incorrect")
  | some name =>
  match (json.get "sortf").asI64 with
  | none => Except.error ("sortf field missing or incorrect")
  | some sortf =>
  match (json.get "type").asI64 with
  | none => Except.error ("type field missing or incorrect")
  | some ty =>
  match (json.get "usn").asI64 with
  | none => Except.error ("usn field missing or incorrect")
  | some usn =>
  match Model.reqField (json.get "req") with
  | Except.error e => Except.error e
  | Except.ok req =>
  if (json.get "tmpls").isArray = false then Except.error ("tmpls is not array") else
  match parseTemplates (json.get "tmpls").members with
  | Except.error e => Except.error e
  | Except.ok templates =>
  Except.ok
    { epoch := epoch
      id := id
      css := css
      deck_id := did
      fields := []
      latex_post := post
      latex_pre := pre
      modification_time := modt
      name := name
      sort_field := sortf
      templates := templates
      model_type := ModelType.fromI64 ty
      usn := usn
      req := req }

/-- The `flds` entries written by `Model::to_json` (deck.rs lines 624-636). -/
def ModelField.to_json (f : ModelField) : Json :=
  Json.obj
    [("font", Json.str f.font),
     ("name", Json.str f.name),
     ("ord", Json.int f.ordinal),
     ("rtl", Json.bool f.right_to_left),
     ("size", Json.int f.font_size),
     ("sticky", Json.bool f.sticky)]

/-- `Model::to_json` (deck.rs lines 603-650), in insertion order (`tags`
and `vers` are always written as empty arrays). -/
def Model.to_json (m : Model) : Int × Json :=
  (m.epoch, Json.obj
    ([("css", Json.str m.css),
      ("id", Json.int m.id),
      ("latexPost", Json.str m.latex_post),
      ("latexPre", Json.str m.latex_pre),
      ("mod", Json.int m.modification_time),
      ("name", Json.str m.name),
      ("sortf", Json.int m.sort_field),
      ("tags", Json.arr []),
      ("usn", Json.int m.usn),
      ("vers", Json.arr []),
      ("type", Json.int (ModelType.intoI64 m.model_type))]
    ++ (match m.deck_id with
        | some i => [("did", Json.int i)]
        | none => [])
    ++ [("flds", Json.arr (m.fields.map ModelField.to_json))]
    ++ (match m.req with
        | some v => [("req", Json.arr (v.map Request.to_json))]
        | none => [])
    ++ [("tmpls", Template.into_json_all m.templates)]))

/-- `Model::to_json_all` (deck.rs lines 652-661). -/
def Model.to_json_all (v : List Model) : Json :=
  Json.obj (v.map (fun m => (toString (Model.to_json m).1, (Model.to_json m).2)))

/-- C7. (a) Any JSON object lacking the `css` key fails `Model::new` with
the error naming CSS (the `css` lookup is the first field check, and a
missing key indexes to `Null`, whose `as_str` is `None`); (b) whenever
`Model::new` succeeds on a document whose `req` value is not an array — in
particular when the `req` key is absent — the resulting model has
`req = None`. -/
theorem c7_model_css_required_req_optional :
    (∀ (epoch : Int) (es : List (String × Json)), getKey es "css" = Json.null →
      Model.new epoch (Json.obj es) = Except.error ("CSS field missing or incorrect"))
    ∧ (∀ (epoch : Int) (j : Json) (m : Model), Model.new epoch j = Except.ok m →
      (j.get "req").isArray = false → m.req = none) := by
  constructor
  · intro epoch es hcss
    simp [Model.new, Json.isObject, Json.get, hcss, Json.asStr]
  · intro epoch j m h hreq
    have hreqf : Model.reqField (j.get "req") = Except.ok none := by
      simp [Model.reqField, hreq]
    unfold Model.new at h
    repeat' split at h
    all_goals try exact Except.noConfusion h
    all_goals try simp_all
    all_goals (subst h; rfl)

/-- A model document that is valid except that it has no `req` key. -/
def modelDocNoReq : Json :=
  Json.obj
    [("css", Json.str ".card"),
     ("id", Json.int 1425279151691),
     ("latexPre", Json.str "pre"),
     ("latexPost", Json.str "post"),
     ("mod", Json.int 1425279151),
     ("name", Json.str "Basic"),
     ("sortf", Json.int 0),
     ("type", Json.int 0),
     ("usn", Json.int 0),
     ("tmpls", Json.arr [])]

/-- The model `Model::new` produces for `modelDocNoReq` under epoch 5. -/
def modelValNoReq : Model :=
  { epoch := 5
    id := 1425279151691
    css := ".card"
    deck_id := none
    fields := []
    latex_post := "post"
    latex_pre := "pre"
    modification_time := 1425279151
    name := "Basic"
    sort_field := 0
    templates := []
    model_type := ModelType.Standard
    usn := 0
    req := none }

/-- C7 witness: the css clause applied to a concrete object without `css`,
and the req clause applied to a concrete otherwise-valid document without
`req` (which demonstrably parses successfully). -/
theorem c7_model_css_required_req_optional_witness :
    Model.new 7 (Json.obj [("name", Json.str "NoCss")])
      = Except.error ("CSS field missing or incorrect")
    ∧ Model.new 5 modelDocNoReq = Except.ok modelValNoReq
    ∧ modelValNoReq.req = none :=
  ⟨c7_model_css_required_req_optional.1 7 [("name", Json.str "NoCss")] rfl,
   rfl,
   c7_model_css_required_req_optional.2 5 modelDocNoReq modelValNoReq rfl rfl⟩

/-! ## DeckConfig serialization (src/deck.rs)

Only the serializer side is embedded (it is what `Collection::save` runs);
the sub-config floats are carried as rationals and only pass through. -/

/-- `LapsedConfig` (deck.rs). -/
structure LapsedConfig where
  delays : List Rat
  leech_action : LeechAction
  leech_fails : Int
  min_interval : Int
  mult : Rat
deriving DecidableEq

instance : Inhabited LapsedConfig :=
  ⟨{ delays := [], leech_action := LeechAction.Suspend, leech_fails := 0,
     min_interval := 0, mult := 0 }⟩

/-- `NewConfig` (deck.rs). -/
structure NewConfig where
  bury : Bool
  delays : List Rat
  initial_factor : Int
  intervals : List Int
  order : NewOrder
  per_day : Int
  separate : Int
deriving DecidableEq

instance : Inhabited NewConfig :=
  ⟨{ bury := false, delays := [], initial_factor := 0, intervals := [],
     order := NewOrder.Random, per_day := 0, separate := 0 }⟩

/-- `ReviewConfig` (deck.rs). -/
structure ReviewConfig where
  bury : Bool
  ease4 : Rat
  fuzz : Option Rat
  interval_factor : Rat
  max_interval : Rat
  per_day : Int
deriving DecidableEq

instance : Inhabited ReviewConfig :=
  ⟨{ bury := false, ease4 := 0, fuzz := none, interval_factor := 0,
     max_interval := 0, per_day := 0 }⟩

/-- `DeckConfig` (deck.rs). -/
structure DeckConfig where
  id : Int
  autoplay : Bool
  dynamic : Bool
  lapse : Option LapsedConfig
  max_taken : Int
  modification_time : Int
  name : String
  new : Option NewConfig
  replay_audio : Bool
  review : Option ReviewConfig
  timer : Int
  usn : Int
deriving DecidableEq

/-- `LapsedConfig::to_json` (deck.rs lines 1104-1121), insertion order. -/
def LapsedConfig.to_json (l : LapsedConfig) : Json :=
  Json.obj
    [("leechFails", Json.int l.leech_fails),
     ("minInt", Json.int l.min_interval),
     ("mult", Json.num l.mult),
     ("leechAction", Json.int (LeechAction.intoI64 l.leech_action)),
     ("delays", Json.arr (l.delays.map Json.num))]

/-- `NewConfig::to_json` (deck.rs lines 1250-1274), insertion order. -/
def NewConfig.to_json (n : NewConfig) : Json :=
  Json.obj
    [("bury", Json.bool n.bury),
     ("initialFactor", Json.int n.initial_factor),
     ("perDay", Json.int n.per_day),
     ("separate", Json.int n.separate),
     ("delays", Json.arr (n.delays.map Json.num)),
     ("order", Json.int (NewOrder.intoI64 n.order)),
     ("ints", Json.arr (n.intervals.map Json.int))]

/-- `ReviewConfig::to_json` (deck.rs lines 1354-1368), insertion order. -/
def ReviewConfig.to_json (r : ReviewConfig) : Json :=
  Json.obj
    ([("bury", Json.bool r.bury),
      ("ease4", Json.num r.ease4),
      ("ivlFct", Json.num r.interval_factor),
      ("maxIvl", Json.num r.max_interval),
      ("perDay", Json.int r.per_day)]
    ++ (match r.fuzz with
        | some f => [("fuzz", Json.num f)]
        | none => []))

/-- `DeckConfig::to_json` (deck.rs lines 1510-1528), insertion order. The
source unwraps the three sub-configs (a panic on `None`); `Option.get!`
models that with the `Inhabited` default, a case no theorem evaluates. -/
def DeckConfig.to_json (c : DeckConfig) : Int × Json :=
  (c.id, Json.obj
    [("autoplay", Json.bool c.autoplay),
     ("dyn", Json.bool c.dynamic),
     ("id", Json.int c.id),
     ("maxTaken", Json.int c.max_taken),
     ("mod", Json.int c.modification_time),
     ("name", Json.str c.name),
     ("replayq", Json.bool c.replay_audio),
     ("timer", Json.int c.timer),
     ("usn", Json.int c.usn),
     ("rev", (c.review.get!).to_json),
     ("new", (c.new.get!).to_json),
     ("lapse", (c.lapse.get!).to_json)])

/-- `DeckConfig::to_json_all` (deck.rs lines 1530-1539). -/
def DeckConfig.to_json_all (v : List DeckConfig) : Json :=
  Json.obj (v.map (fun dc => (toString (DeckConfig.to_json dc).1, (DeckConfig.to_json dc).2)))

/-! ## `json::stringify` (external crate, used by `Collection::save`)

Only well-formedness matters here: no theorem inspects the produced text
(the column values holding it are carried opaquely). -/

/-- A lower-case hexadecimal digit. -/
def hexDigitChar (n : Nat) : Char :=
  if n < 10 then Char.ofNat ('0'.toNat + n) else Char.ofNat ('a'.toNat + (n - 10))

/-- JSON string escaping. -/
def escapeChar (c : Char) : List Char :=
  if c = '"' then ['\\', '"']
  else if c = '\\' then ['\\', '\\']
  else if c = Char.ofNat 8 then ['\\', 'b']
  else if c = Char.ofNat 12 then ['\\', 'f']
  else if c = Char.ofNat 10 then ['\\', 'n']
  else if c = Char.ofNat 13 then ['\\', 'r']
  else if c = Char.ofNat 9 then ['\\', 't']
  else if c.toNat < 32 then
    ['\\', 'u', '0', '0', hexDigitChar (c.toNat / 16), hexDigitChar (c.toNat % 16)]
  else [c]

/-- Escape every character of a string. -/
def escapeString (s : String) : String :=
  String.mk (s.data.foldr (fun c acc => escapeChar c ++ acc) [])

/-- Decimal rendering of a JSON number (integral values render as in the
crate; the fractional fallback is never produced by the embedded
serializers evaluated here, whose numbers are all integral). -/
def numToString (q : Rat) : String :=
  if q.den = 1 then toString q.num else toString q.num ++ "/" ++ toString q.den

mutual

/-- `json::stringify` on a value. -/
def jsonStringify : Json → String
  | Json.null => "null"
  | Json.bool true => "true"
  | Json.bool false => "false"
  | Json.num q => numToString q
  | Json.str s => "\"" ++ escapeString s ++ "\""
  | Json.arr xs => "[" ++ jsonStringifyList xs ++ "]"
  | Json.obj es => "\x7b" ++ jsonStringifyEntries es ++ "\x7d"

/-- Comma-joined array elements. -/
def jsonStringifyList : List Json → String
  | [] => ""
  | [j] => jsonStringify j
  | j :: rest => jsonStringify j ++ "," ++ jsonStringifyList rest

/-- Comma-joined `"key":value` object entries. -/
def jsonStringifyEntries : List (String × Json) → String
  | [] => ""
  | [(k, v)] => "\"" ++ escapeString k ++ "\":" ++ jsonStringify v
  | (k, v) :: rest =>
    "\"" ++ escapeString k ++ "\":" ++ jsonStringify v ++ "," ++ jsonStringifyEntries rest

end

/-! ## Relational records and the database model (src/deck.rs)

`rusqlite` executes each statement as soon as `execute` is called; with no
explicit transaction every statement is committed individually
(autocommit), which is how the source runs — `Collection::save` opens no
transaction. A prepared INSERT whose column list and VALUES row disagree
in arity is rejected by SQLite when prepared, before any row is written;
binding a parameter list whose length differs from the placeholder count
is likewise an error. -/

/-- A bound SQL parameter value. -/
inductive SqlValue where
  | int (i : Int) : SqlValue
  | text (s : String) : SqlValue
deriving DecidableEq

/-- The SQL failure modes the embedded statements can hit: a syntax error
at prepare (named by its offending leading token), an INSERT whose column
and placeholder counts disagree, and a bound-parameter count mismatch. -/
inductive SqlError where
  | sqlSyntax (token : String) : SqlError
  | arityMismatch (columns placeholders : Nat) : SqlError
  | paramCountMismatch (got expected : Nat) : SqlError
deriving DecidableEq

/-- The five tables `Collection::save` owns, each a list of rows. -/
structure Db where
  cards : List (List SqlValue)
  notes : List (List SqlValue)
  col : List (List SqlValue)
  graves : List (List SqlValue)
  revlog : List (List SqlValue)
deriving DecidableEq

/-- Statement preparation: the INSERT's column count must match its
placeholder count. -/
def prepareInsert (cols : List String) (placeholders : Nat) : Except SqlError Unit :=
  if cols.length = placeholders then Except.ok ()
  else Except.error (SqlError.arityMismatch cols.length placeholders)

/-- Executing a prepared INSERT with bound parameters appends one row;
a parameter-count mismatch is an error and writes nothing. -/
def execRow (placeholders : Nat) (params : List SqlValue)
    (table : List (List SqlValue)) : Except SqlError (List (List SqlValue)) :=
  if params.length = placeholders then Except.ok (table ++ [params])
  else Except.error (SqlError.paramCountMismatch params.length placeholders)

/-- `Card` (deck.rs). -/
structure Card where
  id : Int
  note_id : Int
  deck_id : Int
  ordinal : Int
  modification_time : Int
  usn : Int
  card_type : CardType
  queue : CardQueue
  due : Int
  interval : Int
  factor : Int
  reps : Int
  lapses : Int
  left : Int
  original_due : Int
  original_deck_id : Int
  flags : Int
deriving DecidableEq

/-- The column list of the cards INSERT in `Card::save` and
`Card::save_all` (deck.rs lines 115 and 141-145): EIGHTEEN column names
(including the source's misspelt `laspses`). -/
def cardInsertColumns : List String :=
  ["id", "nid", "did", "ord", "mod", "usn", "type", "queue", "due", "ivl",
   "factor", "reps", "laspses", "left", "odue", "odid", "flags", "data"]

/-- The VALUES row of the cards INSERT has placeholders `?1` through `?17`:
SEVENTEEN. -/
def cardInsertPlaceholders : Nat := 17

/-- The EIGHTEEN values bound by `Card::save`/`Card::save_all`. -/
def cardParams (c : Card) : List SqlValue :=
  [SqlValue.int c.id, SqlValue.int c.note_id, SqlValue.int c.deck_id,
   SqlValue.int c.ordinal, SqlValue.int c.modification_time, SqlValue.int c.usn,
   SqlValue.int (CardType.intoI64 c.card_type),
   SqlValue.int (CardQueue.intoI64 c.queue), SqlValue.int c.due,
   SqlValue.int c.interval, SqlValue.int c.factor, SqlValue.int c.reps,
   SqlValue.int c.lapses, SqlValue.int c.left, SqlValue.int c.original_due,
   SqlValue.int c.original_deck_id, SqlValue.int c.flags, SqlValue.text ""]

/-- `Card::save` (deck.rs lines 112-138): one `execute` = prepare + bind +
run. -/
def Card.save (c : Card) (db : Db) : Db × Except SqlError Unit :=
  match prepareInsert cardInsertColumns cardInsertPlaceholders with
  | Except.error e => (db, Except.error e)
  | Except.ok _ =>
  match execRow cardInsertPlaceholders (cardParams c) db.cards with
  | Except.error e => (db, Except.error e)
  | Except.ok t => ({ db with cards := t }, Except.ok ())

/-- The per-card execute loop of `Card::save_all`. -/
def cardSaveLoop (db : Db) : List Card → Db × Except SqlError Unit
  | [] => (db, Except.ok ())
  | c :: rest =>
    match execRow cardInsertPlaceholders (cardParams c) db.cards with
    | Except.error e => (db, Except.error e)
    | Except.ok t => cardSaveLoop { db with cards := t } rest

/-- `Card::save_all` (deck.rs lines 140-176): `Batch::next` prepares the
statement (`?` propagates a preparation failure), then each card is bound
and executed. -/
def Card.save_all (db : Db) (v : List Card) : Db × Except SqlError Unit :=
  match prepareInsert cardInsertColumns cardInsertPlaceholders with
  | Except.error e => (db, Except.error e)
  | Except.ok _ => cardSaveLoop db v

/-- `Note` (deck.rs). Tag and field values are byte strings
(`List Char`). -/
structure Note where
  id : Int
  guid : String
  model_id : Int
  mod_time : Int
  usn : Int
  tags : List (List Char)
  fields : List (List Char)
  sort_field : String
  sum : Int
deriving DecidableEq

/-- The column list of the notes INSERT (deck.rs lines 679 and 697-701). -/
def noteInsertColumns : List String :=
  ["id", "guid", "mid", "mod", "usn", "tags", "flds", "sfld", "csum", "flags", "data"]

/-- The notes INSERT has placeholders `?1` through `?11`. -/
def noteInsertPlaceholders : Nat := 11

/-- The eleven values bound by `Note::save`/`Note::save_all`: the tag list
space-joined, the field list joined with the `"\0x1f"` literal, plus the
constant `flags = 0` and empty `data`. -/
def noteParams (n : Note) : List SqlValue :=
  [SqlValue.int n.id, SqlValue.text n.guid, SqlValue.int n.model_id,
   SqlValue.int n.mod_time, SqlValue.int n.usn,
   SqlValue.text (String.mk (tagsStore n.tags)),
   SqlValue.text (String.mk (fieldsStore n.fields)),
   SqlValue.text n.sort_field, SqlValue.int n.sum, SqlValue.int 0,
   SqlValue.text ""]

/-- The per-note execute loop of `Note::save_all`. -/
def noteSaveLoop (db : Db) : List Note → Db × Except SqlError Unit
  | [] => (db, Except.ok ())
  | n :: rest =>
    match execRow noteInsertPlaceholders (noteParams n) db.notes with
    | Except.error e => (db, Except.error e)
    | Except.ok t => noteSaveLoop { db with notes := t } rest

/-- `Note::save_all` (deck.rs lines 696-723). -/
def Note.save_all (db : Db) (v : List Note) : Db × Except SqlError Unit :=
  match prepareInsert noteInsertColumns noteInsertPlaceholders with
  | Except.error e => (db, Except.error e)
  | Except.ok _ => noteSaveLoop db v

/-- `ReviewLog` (deck.rs). -/
structure ReviewLog where
  id : Int
  card_id : Int
  usn : Int
  ease : ReviewAnswer
  interval : Int
  last_interval : Int
  factor : Int
  time : Int
  card_type : CardType
deriving DecidableEq

/-- The column list of the revlog INSERT (deck.rs lines 1871 and
1887-1891). -/
def revlogInsertColumns : List String :=
  ["id", "cid", "usn", "ease", "ivl", "lastIvl", "factor", "time", "type"]

/-- The revlog INSERT has placeholders `?1` through `?9`. -/
def revlogInsertPlaceholders : Nat := 9

/-- The nine values bound by `ReviewLog::save`/`ReviewLog::save_all`; the
answer is encoded with `is_review = (card_type == CardType::Review)`. -/
def revlogParams (r : ReviewLog) : List SqlValue :=
  [SqlValue.int r.id, SqlValue.int r.card_id, SqlValue.int r.usn,
   SqlValue.int (ReviewAnswer.into_i64 r.ease (decide (r.card_type = CardType.Review))),
   SqlValue.int r.interval, SqlValue.int r.last_interval, SqlValue.int r.factor,
   SqlValue.int r.time, SqlValue.int (CardType.intoI64 r.card_type)]

/-- The per-entry execute loop of `ReviewLog::save_all`. -/
def revlogSaveLoop (db : Db) : List ReviewLog → Db × Except SqlError Unit
  | [] => (db, Except.ok ())
  | r :: rest =>
    match execRow revlogInsertPlaceholders (revlogParams r) db.revlog with
    | Except.error e => (db, Except.error e)
    | Except.ok t => revlogSaveLoop { db with revlog := t } rest

/-- `ReviewLog::save_all` (deck.rs lines 1886-1913). -/
def ReviewLog.save_all (db : Db) (v : List ReviewLog) : Db × Except SqlError Unit :=
  match prepareInsert revlogInsertColumns revlogInsertPlaceholders with
  | Except.error e => (db, Except.error e)
  | Except.ok _ => revlogSaveLoop db v

/-- `Grave` (deck.rs). -/
structure Grave where
  usn : Int
  oid : Int
  grave_type : GraveType
deriving DecidableEq

/-- The column list of the graves INSERT (deck.rs lines 1956 and 1963). -/
def graveInsertColumns : List String := ["usn", "oid", "type"]

/-- The graves INSERT has placeholders `?1` through `?3`. -/
def graveInsertPlaceholders : Nat := 3

/-- The three values bound by `Grave::save`/`Grave::save_all`. -/
def graveParams (g : Grave) : List SqlValue :=
  [SqlValue.int g.usn, SqlValue.int g.oid,
   SqlValue.int (GraveType.intoI64 g.grave_type)]

/-- The per-grave execute loop of `Grave::save_all`. -/
def graveSaveLoop (db : Db) : List Grave → Db × Except SqlError Unit
  | [] => (db, Except.ok ())
  | g :: rest =>
    match execRow graveInsertPlaceholders (graveParams g) db.graves with
    | Except.error e => (db, Except.error e)
    | Except.ok t => graveSaveLoop { db with graves := t } rest

/-- `Grave::save_all` (deck.rs lines 1962-1972). -/
def Grave.save_all (db : Db) (v : List Grave) : Db × Except SqlError Unit :=
  match prepareInsert graveInsertColumns graveInsertPlaceholders with
  | Except.error e => (db, Except.error e)
  | Except.ok _ => graveSaveLoop db v

/-- `Collection` (deck.rs). -/
structure Collection where
  id : Int
  crt : Int
  modification_time : Int
  schema_time : Int
  version : Int
  usn : Int
  last_sync : Int
  config : SyncConfig
  models : List Model
  decks : List Deck
  deck_configs : List DeckConfig
  tags : String
  notes : List Note
  cards : List Card
  revlog : List ReviewLog
  graves : List Grave
deriving DecidableEq

/-- The column list of the col INSERT (deck.rs line 2152). -/
def colInsertColumns : List String :=
  ["id", "crt", "mod", "scm", "ver", "dty", "usn", "ls", "conf", "models",
   "decks", "dconf", "tags"]

/-- The col INSERT has placeholders `?1` through `?13`. -/
def colInsertPlaceholders : Nat := 13

/-- The thirteen values bound by the col INSERT: the four JSON columns are
the stringified serializer outputs, `dty` is the constant 0. -/
def colParams (c : Collection) : List SqlValue :=
  [SqlValue.int c.id, SqlValue.int c.crt, SqlValue.int c.modification_time,
   SqlValue.int c.schema_time, SqlValue.int c.version, SqlValue.int 0,
   SqlValue.int c.usn, SqlValue.int c.last_sync,
   SqlValue.text (jsonStringify (SyncConfig.to_json c.config)),
   SqlValue.text (jsonStringify (Model.to_json_all c.models)),
   SqlValue.text (jsonStringify (Deck.to_json_all c.decks)),
   SqlValue.text (jsonStringify (DeckConfig.to_json_all c.deck_configs)),
   SqlValue.text c.tags]

/-- The five statements of the clearing batch at the top of
`Collection::save` (deck.rs lines 2126-2132), as `rusqlite::Batch`
iterates them (one statement per semicolon, whitespace-trimmed). -/
def truncateStatements : List String :=
  ["TRUNCATE TABLE cards", "TRUNCATE TABLE notes", "TRUNCATE TABLE col",
   "TRUNCATE TABLE graves", "TRUNCATE TABLE revlog"]

/-- The leading token of a SQL statement text. -/
def leadingWord (s : String) : String :=
  String.mk (s.data.takeWhile (fun ch => ch != ' '))

/-- The statement-initial keywords of SQLite's grammar. `TRUNCATE` is not
among them: SQLite has no TRUNCATE statement. -/
def sqliteStatementKeywords : List String :=
  ["ALTER", "ANALYZE", "ATTACH", "BEGIN", "COMMIT", "CREATE", "DELETE",
   "DETACH", "DROP", "END", "EXPLAIN", "INSERT", "PRAGMA", "REINDEX",
   "RELEASE", "REPLACE", "ROLLBACK", "SAVEPOINT", "SELECT", "UPDATE",
   "VACUUM", "WITH"]

/-- Preparing a batch statement: SQLite rejects a statement whose leading
keyword is not in its grammar with a syntax error naming that token. -/
def prepareStatement (stmt : String) : Except SqlError Unit :=
  if sqliteStatementKeywords.contains (leadingWord stmt) then Except.ok ()
  else Except.error (SqlError.sqlSyntax (leadingWord stmt))

/-- The standard-SQL meaning of each clearing statement (remove every row
of the named table). On SQLite this is unreachable from `truncateBatch`,
because the statements never prepare; the meaning is kept so that no
semantics is invented for a successfully prepared statement. -/
def execClearStatement (stmt : String) (db : Db) : Db :=
  if stmt = "TRUNCATE TABLE cards" then { db with cards := [] }
  else if stmt = "TRUNCATE TABLE notes" then { db with notes := [] }
  else if stmt = "TRUNCATE TABLE col" then { db with col := [] }
  else if stmt = "TRUNCATE TABLE graves" then { db with graves := [] }
  else if stmt = "TRUNCATE TABLE revlog" then { db with revlog := [] }
  else db

/-- The batch loop: `Batch::next()?` prepares each statement in turn and
the `?` propagates the first failure (deck.rs lines 2133-2136); a
successfully prepared statement executes and commits immediately. -/
def truncateBatchLoop (db : Db) : List String → Db × Except SqlError Unit
  | [] => (db, Except.ok ())
  | stmt :: rest =>
    match prepareStatement stmt with
    | Except.error e => (db, Except.error e)
    | Except.ok _ => truncateBatchLoop (execClearStatement stmt db) rest

/-- The clearing batch of `Collection::save`. SQLite has no TRUNCATE
statement, so the very first statement fails to prepare and the batch
returns a syntax error with the database untouched. -/
def truncateBatch (db : Db) : Db × Except SqlError Unit :=
  truncateBatchLoop db truncateStatements

/-- The four `save_all` calls that follow the col INSERT in
`Collection::save` (deck.rs lines 2157-2160), `?`-chained in source
order: notes, cards, revlog, graves. -/
def saveTables (c : Collection) (db : Db) : Db × Except SqlError Unit :=
  match Note.save_all db c.notes with
  | (db3, Except.error e) => (db3, Except.error e)
  | (db3, Except.ok _) =>
  match Card.save_all db3 c.cards with
  | (db4, Except.error e) => (db4, Except.error e)
  | (db4, Except.ok _) =>
  match ReviewLog.save_all db4 c.revlog with
  | (db5, Except.error e) => (db5, Except.error e)
  | (db5, Except.ok _) =>
  match Grave.save_all db5 c.graves with
  | (db6, Except.error e) => (db6, Except.error e)
  | (db6, Except.ok _) => (db6, Except.ok ())

/-- `Collection::save` (deck.rs lines 2121-2163): run the clearing batch,
insert the col row, then rewrite the four relational tables. No
transaction is opened anywhere: every step commits on its own, and an
error at any step simply propagates (`?`), leaving all earlier mutations
in place. On SQLite the clearing batch itself fails to prepare, so every
invocation returns that syntax error before performing any mutation. -/
def Collection.save (c : Collection) (db : Db) : Db × Except SqlError Unit :=
  match truncateBatch db with
  | (db1, Except.error e) => (db1, Except.error e)
  | (db1, Except.ok _) =>
  match prepareInsert colInsertColumns colInsertPlaceholders with
  | Except.error e => (db1, Except.error e)
  | Except.ok _ =>
  match execRow colInsertPlaceholders (colParams c) db1.col with
  | Except.error e => (db1, Except.error e)
  | Except.ok t => saveTables c { db1 with col := t }

/-- A concrete new card. -/
def card0 : Card :=
  { id := 1, note_id := 1, deck_id := 1, ordinal := 0, modification_time := 0,
    usn := 0, card_type := CardType.New, queue := CardQueue.New, due := 1,
    interval := 0, factor := 2500, reps := 0, lapses := 0, left := 0,
    original_due := 0, original_deck_id := 0, flags := 0 }

/-- A concrete collection holding one card and nothing else. -/
def collection0 : Collection :=
  { id := 1, crt := 0, modification_time := 0, schema_time := 0, version := 11,
    usn := 0, last_sync := 0, config := syncVal, models := [], decks := [],
    deck_configs := [], tags := "", notes := [], cards := [card0], revlog := [],
    graves := [] }

/-- A database state with pre-existing rows in col, graves and revlog. -/
def db0 : Db :=
  { cards := [], notes := [], col := [[SqlValue.int 99]],
    graves := [[SqlValue.int 9]], revlog := [[SqlValue.int 7]] }

/-- C9. The cards INSERT of `Card::save` and `Card::save_all` names 18
columns (including the misspelt `laspses`) but supplies only 17
placeholders while binding 18 values, so the statement never prepares: the
single-card save errors and writes no row, every non-empty batch save
errors, and saving a collection holding at least one card indeed fails —
though `Collection::save` errors even before reaching the cards pass,
because SQLite already rejects its clearing batch (no TRUNCATE statement),
so the collection-level failure carries that earlier error. -/
theorem c9_card_insert_arity_mismatch :
    cardInsertColumns.length = 18
    ∧ cardInsertPlaceholders = 17
    ∧ (∀ c : Card, (cardParams c).length = 18)
    ∧ (∀ (c : Card) (db : Db),
        Card.save c db = (db, Except.error (SqlError.arityMismatch 18 17)))
    ∧ (∀ (db : Db) (v : List Card), v ≠ [] →
        Card.save_all db v = (db, Except.error (SqlError.arityMismatch 18 17)))
    ∧ (∀ (c : Collection) (db : Db), c.cards ≠ [] →
        ∃ e, (Collection.save c db).2 = Except.error e) :=
  ⟨rfl, rfl, fun _ => rfl, fun _ _ => rfl, fun _ _ _ => rfl,
   fun _ _ _ => ⟨SqlError.sqlSyntax "TRUNCATE", rfl⟩⟩

/-- C9 witness: the batch save applied to the concrete one-card list, and
the collection save applied to the concrete one-card collection. -/
theorem c9_card_insert_arity_mismatch_witness :
    Card.save_all db0 [card0] = (db0, Except.error (SqlError.arityMismatch 18 17))
    ∧ ∃ e, (Collection.save collection0 db0).2 = Except.error e :=
  ⟨c9_card_insert_arity_mismatch.2.2.2.2.1 db0 [card0] (by simp),
   c9_card_insert_arity_mismatch.2.2.2.2.2 collection0 db0 (by simp [collection0])⟩

/-- C2. The guarantee the claim requires — a save that fails mid-way must
leave the prior on-disk database contents unchanged, never a cleared,
data-losing state — holds for every collection and every database state:
`Collection::save` fails at its very first step, because SQLite has no
TRUNCATE statement and the clearing batch does not prepare, so every
invocation returns that error with the database exactly as it was. (The
preservation does not come from a transaction — the source opens none —
but from the save failing before its first mutation; no execution that
clears and then fails exists.) -/
theorem c2_failed_save_leaves_database_unchanged :
    ∀ (c : Collection) (db : Db),
      (Collection.save c db).1 = db
      ∧ (Collection.save c db).2 = Except.error (SqlError.sqlSyntax "TRUNCATE") :=
  fun _ _ => ⟨rfl, rfl⟩
